import Mathlib

/-!
# RP2040 differential-Manchester USB bridge: streaming transport layer

A shallow embedding of the DMA transport code of `differential_manchester.c`,
`differential_manchester.h` and `main.c`.

* C globals (`TxXferCount`, `dma_tx_chan`, `dma_rx_chan`, `TxBuffer`), the
  function-local `static uint offset` of `dma_rx_task`, and the DMA channel
  registers are fields of one `State` record; every C function becomes a
  state transformer.
* `uint32_t` / `uint` arithmetic is `Nat` arithmetic with an explicit
  `% UINT32_MOD`.
* Calls into the Pico SDK and TinyUSB are recorded, in program order, in
  `State.hw_calls` (DMA, IRQ and PIO control), `State.reports`
  (`tud_hid_report`) and `State.stdout` (`printf`), and the register writes
  of the DMA calls are applied to `State.chans`.
-/

namespace DiffManchester

/-! ## Constants (`differential_manchester.h`) -/

/-- The macro `RXBUF_SIZE`: capture buffer capacity in 32-bit words. -/
def RXBUF_SIZE : Nat := 256

/-- The macro `TXBUF_SIZE`: self-test source buffer capacity in 32-bit words. -/
def TXBUF_SIZE : Nat := 256

/-- The macro `DMA_XFER`: number of words per DMA block (one chunk). -/
def DMA_XFER : Nat := 16

/-- The macro `RID_TXXFER`: report identifier of the telemetry counter. -/
def RID_TXXFER : Nat := 0xff

/-- Number of values of a `uint32_t` (and of `uint`) on the target. -/
def UINT32_MOD : Nat := 4294967296

/-- Number of values of a `uint16_t`. -/
def UINT16_MOD : Nat := 65536

/-- The value of `sizeof(uint32_t)`, also `sizeof(TxBuffer[0])` and `sizeof(TxXferCount)`. -/
def SIZEOF_UINT32 : Nat := 4

/-- The SDK enumerator `DMA_SIZE_32` (transfers of `2 ^ 2` bytes). -/
def DMA_SIZE_32 : Nat := 2

/-! ## DMA channel configuration (Pico SDK `dma_channel_config`) -/

/-- Pacing source of a channel: unpaced, or the data request of one PIO FIFO. -/
inductive Dreq where
  | force : Dreq
  | pio_fifo (sm : Nat) (is_tx : Bool) : Dreq
  deriving DecidableEq, Repr

/-- The fields of the channel CTRL word that the setup code programs. -/
structure dma_channel_config where
  data_size : Nat
  incr_read : Bool
  incr_write : Bool
  ring_write : Bool
  ring_size_bits : Nat
  dreq : Dreq
  deriving DecidableEq, Repr

/-- The SDK call `dma_channel_get_default_config`: 32-bit transfers, read increment on,
write increment off, no ring, unpaced. -/
def dma_channel_get_default_config (_chan : Nat) : dma_channel_config :=
  { data_size := DMA_SIZE_32, incr_read := true, incr_write := false,
    ring_write := false, ring_size_bits := 0, dreq := Dreq.force }

/-- The SDK call `channel_config_set_transfer_data_size`. -/
def channel_config_set_transfer_data_size (c : dma_channel_config) (size : Nat) :
    dma_channel_config :=
  { c with data_size := size }

/-- The SDK call `channel_config_set_read_increment`. -/
def channel_config_set_read_increment (c : dma_channel_config) (incr : Bool) :
    dma_channel_config :=
  { c with incr_read := incr }

/-- The SDK call `channel_config_set_write_increment`. -/
def channel_config_set_write_increment (c : dma_channel_config) (incr : Bool) :
    dma_channel_config :=
  { c with incr_write := incr }

/-- The SDK call `channel_config_set_ring (c, write, size_bits)`: selects the wrapped side
and the wrap region of `2 ^ size_bits` bytes. -/
def channel_config_set_ring (c : dma_channel_config) (write : Bool) (size_bits : Nat) :
    dma_channel_config :=
  { c with ring_write := write, ring_size_bits := size_bits }

/-- The SDK call `channel_config_set_dreq`. -/
def channel_config_set_dreq (c : dma_channel_config) (dreq : Dreq) : dma_channel_config :=
  { c with dreq := dreq }

/-- The SDK call `pio_get_dreq (pio, sm, is_tx)` for the single PIO instance `pio0`. -/
def pio_get_dreq (sm : Nat) (is_tx : Bool) : Dreq :=
  Dreq.pio_fifo sm is_tx

/-- Registers of one DMA channel. -/
structure dma_channel_hw where
  read_addr : Nat
  write_addr : Nat
  transfer_count : Nat
  ctrl : dma_channel_config
  deriving DecidableEq, Repr

/-! ## Recorded external calls -/

/-- Calls into the DMA, interrupt-controller and PIO parts of the SDK. -/
inductive HwCall where
  | dma_claim_unused_channel (chan : Nat) : HwCall
  | dma_channel_configure (chan : Nat) (trigger : Bool) : HwCall
  | dma_channel_set_read_addr (chan addr : Nat) (trigger : Bool) : HwCall
  | dma_channel_set_trans_count (chan count : Nat) (trigger : Bool) : HwCall
  | dma_channel_start (chan : Nat) : HwCall
  | dma_channel_wait_for_finish_blocking (chan : Nat) : HwCall
  | dma_channel_acknowledge_irq0 (chan : Nat) : HwCall
  | dma_channel_acknowledge_irq1 (chan : Nat) : HwCall
  | dma_channel_set_irq0_enabled (chan : Nat) (enabled : Bool) : HwCall
  | dma_channel_set_irq1_enabled (chan : Nat) (enabled : Bool) : HwCall
  | irq_set_exclusive_handler (irq_line : Nat) : HwCall
  | irq_set_enabled (irq_line : Nat) (enabled : Bool) : HwCall
  | pio_sm_set_enabled (sm : Nat) (enabled : Bool) : HwCall
  | pio_sm_clear_fifos (sm : Nat) : HwCall
  deriving DecidableEq, Repr

/-- Whether a recorded call starts (triggers) a DMA channel. -/
def HwCall.triggers : HwCall → Bool
  | HwCall.dma_channel_configure _ t => t
  | HwCall.dma_channel_set_read_addr _ _ t => t
  | HwCall.dma_channel_set_trans_count _ _ t => t
  | HwCall.dma_channel_start _ => true
  | _ => false

/-- One call `tud_hid_report (report_id, RxBuffer + word_offset, len)`; the pointer is kept
as its distance from `RxBuffer` in 32-bit entries, `len` is in bytes. -/
structure HidReport where
  report_id : Nat
  word_offset : Nat
  len : Nat
  deriving DecidableEq, Repr

/-- Diagnostic lines written with `printf`, with the values they print. -/
inductive Diag where
  | put_blocking_error (len : Nat) : Diag
  | set_report_error (result : Int) : Diag
  | get_report (itf report_id report_type count : Nat) : Diag
  deriving DecidableEq, Repr

/-! ## Program state -/

/-- Globals of `differential_manchester.c`, the static `offset` of `dma_rx_task`, the DMA
channel registers, and the record of external calls. -/
structure State where
  TxXferCount : Nat
  dma_tx_chan : Nat
  dma_rx_chan : Nat
  TxBuffer : List Nat
  offset : Nat
  chans : Nat → dma_channel_hw
  hw_calls : List HwCall
  reports : List HidReport
  stdout : List Diag

/-- Addresses fixed by the linker and the chip: the two buffers and the two PIO FIFO
registers `&pio->txf[sm_tx]`, `&pio->rxf[sm_rx]`. -/
structure Board where
  TxBuffer_addr : Nat
  RxBuffer_addr : Nat
  txf_addr : Nat
  rxf_addr : Nat
  deriving DecidableEq, Repr

/-- The global `sm_tx`. -/
def sm_tx : Nat := 0

/-- The global `sm_rx`. -/
def sm_rx : Nat := 1

/-- The SDK interrupt number `DMA_IRQ_0`. -/
def DMA_IRQ_0 : Nat := 11

/-- The SDK interrupt number `DMA_IRQ_1`. -/
def DMA_IRQ_1 : Nat := 12

/-- State at program start: zero-initialised globals (`TxXferCount = 0`, `offset = 0`,
both buffers zero), channel registers in their default configuration, nothing recorded. -/
def State.init : State :=
  { TxXferCount := 0, dma_tx_chan := 0, dma_rx_chan := 0,
    TxBuffer := List.replicate (TXBUF_SIZE * SIZEOF_UINT32) 0,
    offset := 0,
    chans := fun ch =>
      { read_addr := 0, write_addr := 0, transfer_count := 0,
        ctrl := dma_channel_get_default_config ch },
    hw_calls := [], reports := [], stdout := [] }

/-- Appends one external call to the record. -/
def State.call (s : State) (c : HwCall) : State :=
  { s with hw_calls := s.hw_calls ++ [c] }

/-! ## SDK calls that write channel registers -/

/-- The SDK call `dma_channel_configure (chan, cfg, write_addr, read_addr, count, trigger)`. -/
def dma_channel_configure (s : State) (chan : Nat) (cfg : dma_channel_config)
    (write_addr read_addr count : Nat) (trigger : Bool) : State :=
  { s with
    chans := Function.update s.chans chan
      { read_addr := read_addr, write_addr := write_addr, transfer_count := count,
        ctrl := cfg },
    hw_calls := s.hw_calls ++ [HwCall.dma_channel_configure chan trigger] }

/-- The SDK call `dma_channel_set_read_addr (chan, addr, trigger)`. -/
def dma_channel_set_read_addr (s : State) (chan addr : Nat) (trigger : Bool) : State :=
  { s with
    chans := Function.update s.chans chan { s.chans chan with read_addr := addr },
    hw_calls := s.hw_calls ++ [HwCall.dma_channel_set_read_addr chan addr trigger] }

/-- The SDK call `dma_channel_set_trans_count (chan, count, trigger)`. -/
def dma_channel_set_trans_count (s : State) (chan count : Nat) (trigger : Bool) : State :=
  { s with
    chans := Function.update s.chans chan { s.chans chan with transfer_count := count },
    hw_calls := s.hw_calls ++ [HwCall.dma_channel_set_trans_count chan count trigger] }

/-! ## Receive path (`main.c`, `dma_rx_task`) -/

/-- The function `dma_rx_task`: `p = RxBuffer + offset`, start the receive channel, wait for
the block, hand 64 bytes at `p` to `tud_hid_report`, then
`offset = (offset + DMA_XFER) % RXBUF_SIZE` in `uint` arithmetic. -/
def dma_rx_task (s : State) : State :=
  let p := s.offset
  let s1 := s.call (HwCall.dma_channel_start s.dma_rx_chan)
  let s2 := s1.call (HwCall.dma_channel_wait_for_finish_blocking s1.dma_rx_chan)
  let s3 := { s2 with reports := s2.reports ++ [HidReport.mk 0 p 64] }
  { s3 with offset := ((s3.offset + DMA_XFER) % UINT32_MOD) % RXBUF_SIZE }

/-- Word offsets of the chunks forwarded between an earlier state `s` and a later state `t`:
the `tud_hid_report` calls recorded in `t` after those already recorded in `s`. -/
def forwarded (s t : State) : List Nat :=
  (t.reports.drop s.reports.length).map HidReport.word_offset

/-- The loop of `core1_entry` (`while (1) dma_rx_task ();`) run for `N` iterations. -/
def core1_loop (N : Nat) (s : State) : State :=
  Nat.iterate dma_rx_task N s

/-- The interrupt handler `dma_rx_handler`: acknowledge IRQ line 1 for the receive channel
and restart the channel. -/
def dma_rx_handler (s : State) : State :=
  let s1 := s.call (HwCall.dma_channel_acknowledge_irq1 s.dma_rx_chan)
  s1.call (HwCall.dma_channel_start s1.dma_rx_chan)

/-- The function `dma_rx_setup`; `claimed` is the channel number returned by
`dma_claim_unused_channel (true)`. -/
def dma_rx_setup (s : State) (b : Board) (claimed : Nat) : State :=
  let s1 := s.call (HwCall.pio_sm_set_enabled sm_rx false)
  let s2 := s1.call (HwCall.pio_sm_clear_fifos sm_rx)
  let s3 := { s2.call (HwCall.dma_claim_unused_channel claimed) with dma_rx_chan := claimed }
  let c1 := dma_channel_get_default_config s3.dma_rx_chan
  let c1 := channel_config_set_transfer_data_size c1 DMA_SIZE_32
  let c1 := channel_config_set_read_increment c1 false
  let c1 := channel_config_set_write_increment c1 true
  let c1 := channel_config_set_ring c1 true 10
  let c1 := channel_config_set_dreq c1 (pio_get_dreq sm_rx false)
  let s4 := dma_channel_configure s3 s3.dma_rx_chan c1 b.RxBuffer_addr b.rxf_addr DMA_XFER false
  let s5 := s4.call (HwCall.dma_channel_set_irq1_enabled s4.dma_rx_chan true)
  let s6 := s5.call (HwCall.irq_set_exclusive_handler DMA_IRQ_1)
  let s7 := s6.call (HwCall.irq_set_enabled DMA_IRQ_1 true)
  s7.call (HwCall.pio_sm_set_enabled sm_rx true)

/-! ## Transmit path (`differential_manchester.c`) -/

/-- The function `dma_tx_setup`: fill `TxBuffer` bytewise with `i % 0x100`, claim a channel
(`claimed` is the number returned), build the configuration `c0`, write it to the channel
without starting it, and enable the completion interrupt on IRQ line 0. -/
def dma_tx_setup (s : State) (b : Board) (claimed : Nat) : State :=
  let s0 := { s with
    TxBuffer := (List.range (TXBUF_SIZE * SIZEOF_UINT32)).map (fun i => i % 0x100) }
  let s1 := { s0.call (HwCall.dma_claim_unused_channel claimed) with dma_tx_chan := claimed }
  let c0 := dma_channel_get_default_config s1.dma_tx_chan
  let c0 := channel_config_set_transfer_data_size c0 DMA_SIZE_32
  let c0 := channel_config_set_read_increment c0 true
  let c0 := channel_config_set_write_increment c0 false
  let c0 := channel_config_set_ring c0 false 10
  let c0 := channel_config_set_dreq c0 (pio_get_dreq sm_tx true)
  let s2 := dma_channel_configure s1 s1.dma_tx_chan c0 b.txf_addr b.TxBuffer_addr DMA_XFER false
  let s3 := s2.call (HwCall.dma_channel_set_irq0_enabled s2.dma_tx_chan true)
  let s4 := s3.call (HwCall.irq_set_exclusive_handler DMA_IRQ_0)
  s4.call (HwCall.irq_set_enabled DMA_IRQ_0 true)

/-- The interrupt handler `dma_tx_handler`: `TxXferCount += DMA_XFER` in `uint32_t`
arithmetic, then acknowledge IRQ line 0 for the transmit channel. -/
def dma_tx_handler (s : State) : State :=
  let s1 := { s with TxXferCount := (s.TxXferCount + DMA_XFER) % UINT32_MOD }
  s1.call (HwCall.dma_channel_acknowledge_irq0 s1.dma_tx_chan)

/-- The function `buf_to_pio_sm_put_blocking (p, len)`; `p` is the buffer address. The guard
is the source expression `len < 64 | len % 4` (a bitwise or of the comparison result and the
remainder); on the guarded path the function prints and returns `len`, otherwise it writes
the read address (no trigger), writes the transfer count `len / sizeof(uint32_t)` (trigger),
waits for the channel and returns 0. -/
def buf_to_pio_sm_put_blocking (s : State) (p len : Nat) : State × Int :=
  let xfer_count := len / SIZEOF_UINT32
  if ((if len < 64 then 1 else 0) ||| (len % 4)) ≠ 0 then
    ({ s with stdout := s.stdout ++ [Diag.put_blocking_error len] }, (len : Int))
  else
    let s1 := dma_channel_set_read_addr s s.dma_tx_chan p false
    let s2 := dma_channel_set_trans_count s1 s1.dma_tx_chan xfer_count true
    let s3 := s2.call (HwCall.dma_channel_wait_for_finish_blocking s2.dma_tx_chan)
    (s3, 0)

/-- The calls recorded in `t` after those already recorded in `s`. -/
def new_calls (s t : State) : List HwCall :=
  t.hw_calls.drop s.hw_calls.length

/-! ## Report bridge (`main.c`) -/

/-- The callback `tud_hid_get_report_cb`; `buffer` is the byte memory at the response
pointer, indexed from 0. For `RID_TXXFER` it prints, stores
`TxXferCount >> i * 8 & 0xff` at `buffer[i]` for `i = 0 .. sizeof(TxXferCount) - 1` and returns
that byte count; otherwise it returns 0. The result is the new state, the buffer and the
returned `uint16_t`. -/
def tud_hid_get_report_cb (s : State) (itf report_id report_type : Nat) (buffer : Nat → Nat)
    (_reqlen : Nat) : State × (Nat → Nat) × Nat :=
  if report_id = RID_TXXFER then
    let s1 := { s with
      stdout := s.stdout ++ [Diag.get_report itf report_id report_type s.TxXferCount] }
    let byte_count := SIZEOF_UINT32
    let buffer1 := (List.range byte_count).foldl
      (fun b i => Function.update b i ((s1.TxXferCount >>> (i * 8)) &&& 0xff)) buffer
    (s1, buffer1, byte_count % UINT16_MOD)
  else
    (s, buffer, 0)

/-- The callback `tud_hid_set_report_cb`: pass the payload to `buf_to_pio_sm_put_blocking`
and print a diagnostic when the result is positive. -/
def tud_hid_set_report_cb (s : State) (_itf _report_id _report_type : Nat)
    (buffer bufsize : Nat) : State :=
  let r := buf_to_pio_sm_put_blocking s buffer bufsize
  if r.2 > 0 then
    { r.1 with stdout := r.1.stdout ++ [Diag.set_report_error r.2] }
  else
    r.1

/-! ## The transport as a transition system -/

/-- The operations that act on the transport after start-up. -/
inductive Op where
  | send (buffer len : Nat) : Op
  | set_report (itf report_id report_type buffer bufsize : Nat) : Op
  | get_report (itf report_id report_type : Nat) (buffer : Nat → Nat) (reqlen : Nat) : Op
  | tx_irq : Op
  | rx_irq : Op
  | rx_task : Op

/-- Effect of one operation on the state. -/
def step (s : State) : Op → State
  | Op.send buffer len => (buf_to_pio_sm_put_blocking s buffer len).1
  | Op.set_report itf rid rt buffer bufsize => tud_hid_set_report_cb s itf rid rt buffer bufsize
  | Op.get_report itf rid rt buffer reqlen => (tud_hid_get_report_cb s itf rid rt buffer reqlen).1
  | Op.tx_irq => dma_tx_handler s
  | Op.rx_irq => dma_rx_handler s
  | Op.rx_task => dma_rx_task s

/-- State after start-up: `dma_tx_setup` (called by `main`) and `dma_rx_setup` (called by
`core1_entry`) have both run; they act on different globals and channels. -/
def boot (b : Board) (tx_chan rx_chan : Nat) : State :=
  dma_rx_setup (dma_tx_setup State.init b tx_chan) b rx_chan

/-- States reachable from `s0` by any finite sequence of operations. -/
inductive Reachable (s0 : State) : State → Prop where
  | start : Reachable s0 s0
  | next {s : State} (op : Op) : Reachable s0 s → Reachable s0 (step s op)

/-- One send of `len` bytes at address `p` followed by its transmit completion interrupt. -/
def send_then_irq (p len : Nat) (s : State) : State :=
  dma_tx_handler (buf_to_pio_sm_put_blocking s p len).1

/-- A concrete board: buffers in SRAM (1 KiB aligned, as the `aligned` attributes require)
and the PIO0 FIFO registers of state machines 0 and 1. -/
def board0 : Board :=
  { TxBuffer_addr := 0x20000800, RxBuffer_addr := 0x20000C00,
    txf_addr := 0x50200010, rxf_addr := 0x50200024 }

/-- The state after start-up on `board0` with the counter at the value `c` (the counter
reaches every multiple of 16 below `2 ^ 32`, one completion interrupt at a time). -/
def near_wrap_state (c : Nat) : State :=
  { boot board0 0 1 with TxXferCount := c }

/-! ## DMA read-address generation -/

/-- Modelled from the spec: the address generator of the DMA engine is hardware and has no
source in the repository. The glossary defines ring wrap as the "hardware address-wrapping
feature confining a DMA channel's incrementing address pointer to a power-of-two-aligned
region", and the source marks `TxBuffer` as "Aligned for the DMA ring address wrap". With
read increment on, transfer `i` of a block reads `2 ^ data_size` bytes after transfer
`i - 1`; when the ring is selected for the read side with `ring_size_bits = n > 0`, only
the low `n` address bits advance, so the address stays inside the aligned block of `2 ^ n`
bytes that contains the start address. -/
def dma_read_address (ch : dma_channel_hw) (i : Nat) : Nat :=
  let width := 2 ^ ch.ctrl.data_size
  if ch.ctrl.incr_read then
    if !ch.ctrl.ring_write && ch.ctrl.ring_size_bits != 0 then
      let region := 2 ^ ch.ctrl.ring_size_bits
      (ch.read_addr / region) * region + (ch.read_addr + width * i) % region
    else
      (ch.read_addr + width * i) % UINT32_MOD
  else
    ch.read_addr

/-! ## Receive path: lemmas -/

theorem dma_rx_task_offset (s : State) :
    (dma_rx_task s).offset = ((s.offset + 16) % 4294967296) % 256 := rfl

theorem dma_rx_task_reports (s : State) :
    (dma_rx_task s).reports = s.reports ++ [HidReport.mk 0 s.offset 64] :=
  rfl

theorem core1_loop_succ (N : Nat) (s : State) :
    core1_loop (N + 1) s = dma_rx_task (core1_loop N s) := by
  unfold core1_loop
  rw [Function.iterate_succ_apply']

theorem core1_loop_offset (s : State) (N : Nat) (h : s.offset < 256) :
    (core1_loop N s).offset = (s.offset + N * 16) % 256 := by
  induction N with
  | zero => simp [core1_loop, Nat.mod_eq_of_lt h]
  | succ n ih =>
    rw [core1_loop_succ, dma_rx_task_offset, ih]
    omega

theorem core1_loop_reports (s : State) (N : Nat) (h : s.offset < 256) :
    (core1_loop N s).reports =
      s.reports ++ (List.range N).map
        (fun k => HidReport.mk 0 ((s.offset + k * 16) % 256) 64) := by
  induction N with
  | zero => simp [core1_loop]
  | succ n ih =>
    rw [core1_loop_succ, dma_rx_task_reports, ih, core1_loop_offset s n h,
      List.range_succ, List.map_append, List.append_assoc]
    rfl

theorem forwarded_core1_loop (s : State) (N : Nat) (h : s.offset < 256) :
    forwarded s (core1_loop N s) =
      (List.range N).map (fun k => (s.offset + k * 16) % 256) := by
  unfold forwarded
  rw [core1_loop_reports s N h, List.drop_left, List.map_map]
  rfl

theorem reachable_offset_cases (s0 : State) (N : Nat) (h0 : s0.offset = 0) :
    ∃ j, j < 16 ∧ (core1_loop N s0).offset = 16 * j := by
  refine ⟨N % 16, Nat.mod_lt _ (by decide), ?_⟩
  rw [core1_loop_offset s0 N (by omega), h0]
  omega

/-! ## Receive path: claims -/

/-- C4: starting from any state whose rotation offset is 0 (the initial value of the static
`offset`), after `N` iterations of `dma_rx_task` the offset equals `(N * 16) mod 256`, where
`16 = DMA_XFER` and `256 = RXBUF_SIZE`. -/
theorem C4_offset_after_N (s : State) (N : Nat) (h0 : s.offset = 0) :
    (core1_loop N s).offset = (N * 16) % 256 ∧
      (core1_loop N s).offset = (N * DMA_XFER) % RXBUF_SIZE := by
  have h := core1_loop_offset s N (by omega)
  rw [h0, Nat.zero_add] at h
  exact ⟨h, h⟩

theorem C4_offset_after_N_witness :
    State.init.offset = 0 ∧
      (core1_loop 21 State.init).offset = (21 * 16) % 256 ∧
      (core1_loop 21 State.init).offset = (21 * DMA_XFER) % RXBUF_SIZE :=
  ⟨rfl, C4_offset_after_N State.init 21 rfl⟩

/-- C5: let `s` be the state after any number `N` of iterations of `dma_rx_task` from a
state with offset 0 (so `s.offset` is any reachable rotation offset). Sixteen further
iterations return the offset to `s.offset`; they forward exactly 16 chunks, whose start
word offsets are pairwise distinct and are a rearrangement of `0, 16, ..., 240`, so each of
the 16 chunks of the 256-word buffer is forwarded exactly once. Started from offset 0 the
forwarded word offsets are `0, 16, 32, ..., 240` in this ascending order. -/
theorem C5_full_ring (s0 : State) (N : Nat) (h0 : s0.offset = 0) :
    (core1_loop 16 (core1_loop N s0)).offset = (core1_loop N s0).offset ∧
      (forwarded (core1_loop N s0) (core1_loop 16 (core1_loop N s0))).length = 16 ∧
      (forwarded (core1_loop N s0) (core1_loop 16 (core1_loop N s0))).Nodup ∧
      List.Perm (forwarded (core1_loop N s0) (core1_loop 16 (core1_loop N s0)))
        ((List.range 16).map (fun c => 16 * c)) ∧
      (∀ c, c < 16 →
        (forwarded (core1_loop N s0) (core1_loop 16 (core1_loop N s0))).count (16 * c) = 1) ∧
      forwarded s0 (core1_loop 16 s0) =
        [0, 16, 32, 48, 64, 80, 96, 112, 128, 144, 160, 176, 192, 208, 224, 240] := by
  obtain ⟨j, hj, ho⟩ := reachable_offset_cases s0 N h0
  have hlt : (core1_loop N s0).offset < 256 := by omega
  rw [forwarded_core1_loop _ 16 hlt, core1_loop_offset _ 16 hlt,
    forwarded_core1_loop s0 16 (by omega), ho, h0]
  clear ho hlt h0
  interval_cases j <;> decide

theorem C5_full_ring_witness :
    State.init.offset = 0 ∧
      (core1_loop 16 (core1_loop 5 State.init)).offset = (core1_loop 5 State.init).offset ∧
      (forwarded (core1_loop 5 State.init)
        (core1_loop 16 (core1_loop 5 State.init))).length = 16 ∧
      (forwarded (core1_loop 5 State.init) (core1_loop 16 (core1_loop 5 State.init))).Nodup ∧
      List.Perm (forwarded (core1_loop 5 State.init) (core1_loop 16 (core1_loop 5 State.init)))
        ((List.range 16).map (fun c => 16 * c)) ∧
      (∀ c, c < 16 →
        (forwarded (core1_loop 5 State.init)
          (core1_loop 16 (core1_loop 5 State.init))).count (16 * c) = 1) ∧
      forwarded State.init (core1_loop 16 State.init) =
        [0, 16, 32, 48, 64, 80, 96, 112, 128, 144, 160, 176, 192, 208, 224, 240] :=
  ⟨rfl, C5_full_ring State.init 5 rfl⟩

/-- C10: in every state reached by iterating `dma_rx_task` from offset 0 the rotation
offset is a multiple of 16 and at most 240; the next iteration hands `tud_hid_report`
the 64 bytes (16 words) starting at word `offset` of `RxBuffer`, and
`offset + 16 ≤ 256 = RXBUF_SIZE`, so the chunk lies inside the buffer; and
`offset + DMA_XFER` is below `2 ^ 32`, so the unsigned addition does not overflow. -/
theorem C10_chunk_in_bounds (s0 : State) (N : Nat) (h0 : s0.offset = 0) :
    (core1_loop N s0).offset % 16 = 0 ∧
      (core1_loop N s0).offset ≤ 240 ∧
      (dma_rx_task (core1_loop N s0)).reports =
        (core1_loop N s0).reports ++ [HidReport.mk 0 (core1_loop N s0).offset 64] ∧
      64 = DMA_XFER * SIZEOF_UINT32 ∧
      (core1_loop N s0).offset + DMA_XFER ≤ RXBUF_SIZE ∧
      (core1_loop N s0).offset + DMA_XFER < UINT32_MOD := by
  obtain ⟨j, hj, ho⟩ := reachable_offset_cases s0 N h0
  refine ⟨by omega, by omega, rfl, rfl, ?_, ?_⟩
  · simp only [DMA_XFER, RXBUF_SIZE]; omega
  · simp only [DMA_XFER, UINT32_MOD]; omega

theorem C10_chunk_in_bounds_witness :
    State.init.offset = 0 ∧
      (core1_loop 15 State.init).offset % 16 = 0 ∧
      (core1_loop 15 State.init).offset ≤ 240 ∧
      (dma_rx_task (core1_loop 15 State.init)).reports =
        (core1_loop 15 State.init).reports ++
          [HidReport.mk 0 (core1_loop 15 State.init).offset 64] ∧
      64 = DMA_XFER * SIZEOF_UINT32 ∧
      (core1_loop 15 State.init).offset + DMA_XFER ≤ RXBUF_SIZE ∧
      (core1_loop 15 State.init).offset + DMA_XFER < UINT32_MOD :=
  ⟨rfl, C10_chunk_in_bounds State.init 15 rfl⟩

/-! ## Transmit path: lemmas -/

theorem guard_ne_zero_iff (len : Nat) :
    ((if len < 64 then 1 else 0) ||| (len % 4)) ≠ 0 ↔ (len < 64 ∨ len % 4 ≠ 0) := by
  have hr : len % 4 < 4 := Nat.mod_lt _ (by decide)
  by_cases h : len < 64
  · simp only [h, if_true, true_or, iff_true]
    generalize len % 4 = r at hr
    interval_cases r <;> decide
  · simp [h]

theorem put_blocking_invalid (s : State) (p len : Nat) (h : len < 64 ∨ len % 4 ≠ 0) :
    buf_to_pio_sm_put_blocking s p len =
      ({ s with stdout := s.stdout ++ [Diag.put_blocking_error len] }, (len : Int)) := by
  unfold buf_to_pio_sm_put_blocking
  rw [if_pos ((guard_ne_zero_iff len).mpr h)]

theorem put_blocking_invalid_effects (s : State) (p len : Nat)
    (h : len < 64 ∨ len % 4 ≠ 0) :
    (buf_to_pio_sm_put_blocking s p len).2 = (len : Int) ∧
      new_calls s (buf_to_pio_sm_put_blocking s p len).1 = [] ∧
      (buf_to_pio_sm_put_blocking s p len).1.chans = s.chans ∧
      (buf_to_pio_sm_put_blocking s p len).1.TxXferCount = s.TxXferCount ∧
      (len ≠ 0 → (buf_to_pio_sm_put_blocking s p len).2 ≠ 0) := by
  rw [put_blocking_invalid s p len h]
  refine ⟨rfl, by simp [new_calls], rfl, rfl, ?_⟩
  intro hne
  show (len : Int) ≠ 0
  exact_mod_cast hne

theorem put_blocking_valid (s : State) (p len : Nat) (h64 : 64 ≤ len) (h4 : len % 4 = 0) :
    buf_to_pio_sm_put_blocking s p len =
      (((dma_channel_set_trans_count (dma_channel_set_read_addr s s.dma_tx_chan p false)
          s.dma_tx_chan (len / 4) true).call
          (HwCall.dma_channel_wait_for_finish_blocking s.dma_tx_chan)), 0) := by
  unfold buf_to_pio_sm_put_blocking
  rw [if_neg (by rw [guard_ne_zero_iff]; omega)]
  rfl

theorem put_blocking_TxXferCount (s : State) (p len : Nat) :
    (buf_to_pio_sm_put_blocking s p len).1.TxXferCount = s.TxXferCount := by
  by_cases h : len < 64 ∨ len % 4 ≠ 0
  · rw [put_blocking_invalid s p len h]
  · rw [put_blocking_valid s p len (by omega) (by omega)]
    rfl

/-! ## Transmit path: claims -/

/-- C1, the code at the failing input: for the length 0, which fails the length check, the
function returns 0, the very value it returns for the accepted length 64, so the result
does not tell the failure apart from success (and the caller's test `result > 0` does not
fire: nothing is added to its diagnostic). As for every rejected length, no call is made on
any channel, no register changes and `TxXferCount` is unchanged. -/
theorem C1_zero_length_returns_zero (s : State) (p q : Nat) :
    (0 < 64 ∨ 0 % 4 ≠ 0) ∧
      (buf_to_pio_sm_put_blocking s p 0).2 = 0 ∧
      (buf_to_pio_sm_put_blocking s q 64).2 = 0 ∧
      (tud_hid_set_report_cb s 0 0 0 p 0).stdout = s.stdout ++ [Diag.put_blocking_error 0] ∧
      (buf_to_pio_sm_put_blocking s p 0).1.hw_calls = s.hw_calls ∧
      (buf_to_pio_sm_put_blocking s p 0).1.chans = s.chans ∧
      (buf_to_pio_sm_put_blocking s p 0).1.TxXferCount = s.TxXferCount := by
  refine ⟨Or.inl (by decide), rfl, rfl, rfl, rfl, rfl, rfl⟩

/-- C2: for every payload length `L` (a `uint16_t`) with `L ≥ 64` and `L % 4 = 0`,
`buf_to_pio_sm_put_blocking (buffer, L)` returns 0 and makes exactly three calls on the
transmit channel, in this order: read address := `buffer` (no trigger), transfer count :=
`L / 4` (with trigger), wait for completion. Exactly one of them triggers the channel, the
channel registers then hold read address `buffer` and count `L / 4`, and `4 * (L / 4) = L`. -/
theorem C2_valid_send (s : State) (buffer L : Nat) (_hL : L < UINT16_MOD) (h64 : 64 ≤ L)
    (h4 : L % 4 = 0) :
    (buf_to_pio_sm_put_blocking s buffer L).2 = 0 ∧
      (buf_to_pio_sm_put_blocking s buffer L).1.hw_calls = s.hw_calls ++
        [HwCall.dma_channel_set_read_addr s.dma_tx_chan buffer false,
         HwCall.dma_channel_set_trans_count s.dma_tx_chan (L / 4) true,
         HwCall.dma_channel_wait_for_finish_blocking s.dma_tx_chan] ∧
      ((new_calls s (buf_to_pio_sm_put_blocking s buffer L).1).filter HwCall.triggers).length
        = 1 ∧
      ((buf_to_pio_sm_put_blocking s buffer L).1.chans s.dma_tx_chan).read_addr = buffer ∧
      ((buf_to_pio_sm_put_blocking s buffer L).1.chans s.dma_tx_chan).transfer_count = L / 4 ∧
      4 * (L / 4) = L := by
  rw [put_blocking_valid s buffer L h64 h4]
  refine ⟨rfl, ?_, ?_, ?_, ?_, by omega⟩
  · simp [State.call, dma_channel_set_trans_count, dma_channel_set_read_addr]
  · simp [new_calls, State.call, dma_channel_set_trans_count, dma_channel_set_read_addr,
      HwCall.triggers]
  · simp [State.call, dma_channel_set_trans_count, dma_channel_set_read_addr]
  · simp [State.call, dma_channel_set_trans_count, dma_channel_set_read_addr]

theorem C2_valid_send_witness :
    (128 < UINT16_MOD ∧ 64 ≤ 128 ∧ 128 % 4 = 0) ∧
      (buf_to_pio_sm_put_blocking State.init 0x20001000 128).2 = 0 ∧
      (buf_to_pio_sm_put_blocking State.init 0x20001000 128).1.hw_calls = State.init.hw_calls ++
        [HwCall.dma_channel_set_read_addr State.init.dma_tx_chan 0x20001000 false,
         HwCall.dma_channel_set_trans_count State.init.dma_tx_chan (128 / 4) true,
         HwCall.dma_channel_wait_for_finish_blocking State.init.dma_tx_chan] ∧
      ((new_calls State.init
          (buf_to_pio_sm_put_blocking State.init 0x20001000 128).1).filter
            HwCall.triggers).length = 1 ∧
      ((buf_to_pio_sm_put_blocking State.init 0x20001000 128).1.chans
          State.init.dma_tx_chan).read_addr = 0x20001000 ∧
      ((buf_to_pio_sm_put_blocking State.init 0x20001000 128).1.chans
          State.init.dma_tx_chan).transfer_count = 128 / 4 ∧
      4 * (128 / 4) = 128 :=
  ⟨⟨by decide, by decide, by decide⟩,
    C2_valid_send State.init 0x20001000 128 (by decide) (by decide) (by decide)⟩

/-! ## Telemetry counter: lemmas -/

theorem dma_tx_handler_TxXferCount (s : State) :
    (dma_tx_handler s).TxXferCount = (s.TxXferCount + 16) % 4294967296 := rfl

theorem send_then_irq_TxXferCount (p len : Nat) (s : State) :
    (send_then_irq p len s).TxXferCount = (s.TxXferCount + 16) % 4294967296 := by
  unfold send_then_irq
  rw [dma_tx_handler_TxXferCount, put_blocking_TxXferCount]

theorem set_report_TxXferCount (s : State) (itf rid rt buffer bufsize : Nat) :
    (tud_hid_set_report_cb s itf rid rt buffer bufsize).TxXferCount = s.TxXferCount := by
  unfold tud_hid_set_report_cb
  by_cases h : (buf_to_pio_sm_put_blocking s buffer bufsize).2 > 0
  · simp only [h, if_true]
    exact put_blocking_TxXferCount s buffer bufsize
  · simp only [h, if_false]
    exact put_blocking_TxXferCount s buffer bufsize

theorem get_report_TxXferCount (s : State) (itf rid rt : Nat) (buffer : Nat → Nat)
    (reqlen : Nat) :
    (tud_hid_get_report_cb s itf rid rt buffer reqlen).1.TxXferCount = s.TxXferCount := by
  unfold tud_hid_get_report_cb
  split <;> rfl

theorem step_TxXferCount_of_ne (s : State) (op : Op) (h : op ≠ Op.tx_irq) :
    (step s op).TxXferCount = s.TxXferCount := by
  cases op with
  | send buffer len => exact put_blocking_TxXferCount s buffer len
  | set_report itf rid rt buffer bufsize => exact set_report_TxXferCount s itf rid rt buffer bufsize
  | get_report itf rid rt buffer reqlen => exact get_report_TxXferCount s itf rid rt buffer reqlen
  | tx_irq => exact absurd rfl h
  | rx_irq => rfl
  | rx_task => rfl

theorem iterate_send_then_irq_TxXferCount (p len : Nat) (s : State) (n : Nat)
    (h : s.TxXferCount < 4294967296) :
    (Nat.iterate (send_then_irq p len) n s).TxXferCount
      = (s.TxXferCount + 16 * n) % 4294967296 := by
  induction n with
  | zero => simp [Nat.mod_eq_of_lt h]
  | succ k ih =>
    rw [Function.iterate_succ_apply', send_then_irq_TxXferCount, ih]
    omega

theorem reachable_send_then_irq (s0 s : State) (p len : Nat) (h : Reachable s0 s) :
    Reachable s0 (send_then_irq p len s) :=
  Reachable.next Op.tx_irq (Reachable.next (Op.send p len) h)

theorem reachable_iterate_send_then_irq (s0 : State) (p len n : Nat) :
    Reachable s0 (Nat.iterate (send_then_irq p len) n s0) := by
  induction n with
  | zero => exact Reachable.start
  | succ k ih =>
    rw [Function.iterate_succ_apply']
    exact reachable_send_then_irq s0 _ p len ih

theorem boot_TxXferCount (b : Board) (tx_chan rx_chan : Nat) :
    (boot b tx_chan rx_chan).TxXferCount = 0 := rfl

/-! ## Telemetry counter: claims -/

/-- C3, the code at the failing input: 256 is a valid payload length and a send of 256
bytes programs the transmit channel for `256 / 4 = 64` transfers, yet after start-up that
send followed by its completion interrupt takes `TxXferCount` from 0 to 16, not to 64, and
two consecutive 256-byte sends, each followed by its completion interrupt, take it to 32,
not to 128. (For a 64-byte send the programmed count and the increment are both 16.) -/
theorem C3_counter_undercounts_long_send :
    (256 < UINT16_MOD ∧ 64 ≤ 256 ∧ 256 % 4 = 0) ∧
      (boot board0 0 1).TxXferCount = 0 ∧
      ((buf_to_pio_sm_put_blocking (boot board0 0 1) 0x20001000 256).1.chans
        (boot board0 0 1).dma_tx_chan).transfer_count = 64 ∧
      (send_then_irq 0x20001000 256 (boot board0 0 1)).TxXferCount = 16 ∧
      (send_then_irq 0x20001000 256 (boot board0 0 1)).TxXferCount
        ≠ (boot board0 0 1).TxXferCount + 256 / 4 ∧
      (send_then_irq 0x20001000 256
        (send_then_irq 0x20001000 256 (boot board0 0 1))).TxXferCount = 32 ∧
      (send_then_irq 0x20001000 256
        (send_then_irq 0x20001000 256 (boot board0 0 1))).TxXferCount
        ≠ (boot board0 0 1).TxXferCount + 128 ∧
      ((buf_to_pio_sm_put_blocking (boot board0 0 1) 0x20001000 64).1.chans
        (boot board0 0 1).dma_tx_chan).transfer_count = 16 ∧
      (send_then_irq 0x20001000 64 (boot board0 0 1)).TxXferCount
        = (boot board0 0 1).TxXferCount + 64 / 4 := by
  refine ⟨by decide, rfl, ?_, ?_, ?_, ?_, ?_, ?_, ?_⟩
  · rw [put_blocking_valid _ _ 256 (by decide) (by decide)]
    simp [State.call, dma_channel_set_trans_count, dma_channel_set_read_addr]
  · rw [send_then_irq_TxXferCount, boot_TxXferCount]
  · rw [send_then_irq_TxXferCount, boot_TxXferCount]; decide
  · rw [send_then_irq_TxXferCount, send_then_irq_TxXferCount, boot_TxXferCount]
  · rw [send_then_irq_TxXferCount, send_then_irq_TxXferCount, boot_TxXferCount]; decide
  · rw [put_blocking_valid _ _ 64 (by decide) (by decide)]
    simp [State.call, dma_channel_set_trans_count, dma_channel_set_read_addr]
  · rw [send_then_irq_TxXferCount, boot_TxXferCount]

/-- C7, counterexample: the state after start-up followed by 268435455 sends of 64 bytes,
each with its completion interrupt, is reachable and has `TxXferCount = 4294967280`; the
next transmit completion interrupt leaves `TxXferCount = 0`, a smaller value: the counter
wraps. -/
theorem C7_counterexample :
    Reachable (boot board0 0 1)
        (Nat.iterate (send_then_irq 0x20001000 64) 268435455 (boot board0 0 1)) ∧
      (Nat.iterate (send_then_irq 0x20001000 64) 268435455 (boot board0 0 1)).TxXferCount
        = 4294967280 ∧
      (step (Nat.iterate (send_then_irq 0x20001000 64) 268435455 (boot board0 0 1))
        Op.tx_irq).TxXferCount = 0 ∧
      ¬ ((Nat.iterate (send_then_irq 0x20001000 64) 268435455 (boot board0 0 1)).TxXferCount
        ≤ (step (Nat.iterate (send_then_irq 0x20001000 64) 268435455 (boot board0 0 1))
          Op.tx_irq).TxXferCount) := by
  have hc : (Nat.iterate (send_then_irq 0x20001000 64) 268435455
      (boot board0 0 1)).TxXferCount = 4294967280 := by
    rw [iterate_send_then_irq_TxXferCount _ _ _ _ (by rw [boot_TxXferCount]; decide),
      boot_TxXferCount]
  have hs : (step (Nat.iterate (send_then_irq 0x20001000 64) 268435455 (boot board0 0 1))
      Op.tx_irq).TxXferCount = 0 := by
    show (dma_tx_handler _).TxXferCount = 0
    rw [dma_tx_handler_TxXferCount, hc]
  refine ⟨reachable_iterate_send_then_irq _ _ _ _, hc, hs, ?_⟩
  rw [hc, hs]
  decide

/-- C7, amended: in every state, executing any single operation other than the transmit
completion interrupt leaves `TxXferCount` unchanged, and the transmit completion interrupt
replaces it by `(TxXferCount + 16) mod 2 ^ 32`; hence in every state with
`TxXferCount + 16 < 2 ^ 32` no single operation decreases the counter, and the interrupt
increases it by exactly 16. Only the last two statements depend on the bound. -/
theorem C7_counter_monotone_below_wrap (s : State) (op : Op) :
    (op ≠ Op.tx_irq → (step s op).TxXferCount = s.TxXferCount) ∧
      (step s Op.tx_irq).TxXferCount = (s.TxXferCount + DMA_XFER) % UINT32_MOD ∧
      (step s Op.tx_irq).TxXferCount = (s.TxXferCount + 16) % 4294967296 ∧
      (s.TxXferCount + DMA_XFER < UINT32_MOD →
        s.TxXferCount ≤ (step s op).TxXferCount ∧
        (step s Op.tx_irq).TxXferCount = s.TxXferCount + 16) := by
  have hirq : (step s Op.tx_irq).TxXferCount = (s.TxXferCount + 16) % 4294967296 := rfl
  refine ⟨step_TxXferCount_of_ne s op, hirq, hirq, ?_⟩
  intro h
  simp only [DMA_XFER, UINT32_MOD] at h
  refine ⟨?_, by rw [hirq]; omega⟩
  by_cases hop : op = Op.tx_irq
  · rw [hop, hirq]; omega
  · rw [step_TxXferCount_of_ne s op hop]

theorem C7_counter_monotone_below_wrap_witness :
    (Op.send 0x20001000 64 ≠ Op.tx_irq ∧
        (near_wrap_state 4294967264).TxXferCount + DMA_XFER < UINT32_MOD) ∧
      (step (near_wrap_state 4294967264) (Op.send 0x20001000 64)).TxXferCount = 4294967264 ∧
      (step (near_wrap_state 4294967264) Op.tx_irq).TxXferCount
        = ((near_wrap_state 4294967264).TxXferCount + DMA_XFER) % UINT32_MOD ∧
      (near_wrap_state 4294967264).TxXferCount
        ≤ (step (near_wrap_state 4294967264) (Op.send 0x20001000 64)).TxXferCount ∧
      (step (near_wrap_state 4294967264) Op.tx_irq).TxXferCount = 4294967280 ∧
      (step (near_wrap_state 4294967280) Op.tx_irq).TxXferCount = 0 :=
  have hne : Op.send 0x20001000 64 ≠ Op.tx_irq := fun h => Op.noConfusion h
  have hlt : (near_wrap_state 4294967264).TxXferCount + DMA_XFER < UINT32_MOD := by decide
  ⟨⟨hne, hlt⟩,
    (C7_counter_monotone_below_wrap (near_wrap_state 4294967264) (Op.send 0x20001000 64)).1 hne,
    (C7_counter_monotone_below_wrap (near_wrap_state 4294967264) (Op.send 0x20001000 64)).2.1,
    ((C7_counter_monotone_below_wrap (near_wrap_state 4294967264)
      (Op.send 0x20001000 64)).2.2.2 hlt).1,
    ((C7_counter_monotone_below_wrap (near_wrap_state 4294967264)
      (Op.send 0x20001000 64)).2.2.2 hlt).2,
    (C7_counter_monotone_below_wrap (near_wrap_state 4294967280) Op.tx_irq).2.2.1⟩

/-! ## Report bridge: lemmas -/

theorem shift_mask_eq (c i : Nat) : (c >>> (i * 8)) &&& 0xff = (c / 256 ^ i) % 256 := by
  have hff : (0xff : Nat) = 2 ^ 8 - 1 := by norm_num
  rw [Nat.shiftRight_eq_div_pow, hff, Nat.and_pow_two_sub_one_eq_mod, Nat.mul_comm, pow_mul]
  norm_num

theorem get_report_txxfer (s : State) (itf rt reqlen : Nat) (buffer : Nat → Nat) :
    (tud_hid_get_report_cb s itf RID_TXXFER rt buffer reqlen).2 =
      (Function.update (Function.update (Function.update (Function.update buffer
          0 ((s.TxXferCount / 256 ^ 0) % 256))
          1 ((s.TxXferCount / 256 ^ 1) % 256))
          2 ((s.TxXferCount / 256 ^ 2) % 256))
          3 ((s.TxXferCount / 256 ^ 3) % 256), 4) := by
  unfold tud_hid_get_report_cb
  rw [if_pos rfl]
  simp only [SIZEOF_UINT32, UINT16_MOD, List.range_succ, List.range_zero, List.nil_append,
    List.foldl_append, List.foldl_cons, List.foldl_nil, shift_mask_eq]

/-! ## Report bridge: claims -/

/-- C6: for every 32-bit value `c` of `TxXferCount`, every `reqlen` and every buffer
contents, `tud_hid_get_report_cb` with `report_id = RID_TXXFER = 0xff` returns 4 and leaves
`buffer[i] = (c / 256 ^ i) mod 256` for `i = 0 .. 3` (so the four bytes, least significant
first, sum to `c`) and every other byte as it was; for every other `report_id` it returns 0
and leaves the buffer unchanged. -/
theorem C6_get_report (s : State) (itf rt reqlen : Nat) (buffer : Nat → Nat)
    (hc : s.TxXferCount < UINT32_MOD) :
    RID_TXXFER = 0xff ∧
      (tud_hid_get_report_cb s itf RID_TXXFER rt buffer reqlen).2.2 = 4 ∧
      (∀ i, i < 4 → (tud_hid_get_report_cb s itf RID_TXXFER rt buffer reqlen).2.1 i
        = (s.TxXferCount / 256 ^ i) % 256) ∧
      (tud_hid_get_report_cb s itf RID_TXXFER rt buffer reqlen).2.1 0
        + (tud_hid_get_report_cb s itf RID_TXXFER rt buffer reqlen).2.1 1 * 256 ^ 1
        + (tud_hid_get_report_cb s itf RID_TXXFER rt buffer reqlen).2.1 2 * 256 ^ 2
        + (tud_hid_get_report_cb s itf RID_TXXFER rt buffer reqlen).2.1 3 * 256 ^ 3
        = s.TxXferCount ∧
      (∀ i, 4 ≤ i → (tud_hid_get_report_cb s itf RID_TXXFER rt buffer reqlen).2.1 i
        = buffer i) ∧
      (∀ report_id, report_id ≠ RID_TXXFER →
        (tud_hid_get_report_cb s itf report_id rt buffer reqlen).2 = (buffer, 0)) := by
  simp only [UINT32_MOD] at hc
  rw [get_report_txxfer]
  refine ⟨rfl, rfl, ?_, ?_, ?_, ?_⟩
  · intro i hi
    interval_cases i <;> simp [Function.update]
  · simp [Function.update]
    omega
  · intro i hi
    have h0 : i ≠ 0 := by omega
    have h1 : i ≠ 1 := by omega
    have h2 : i ≠ 2 := by omega
    have h3 : i ≠ 3 := by omega
    simp [Function.update, h0, h1, h2, h3]
  · intro report_id hne
    unfold tud_hid_get_report_cb
    rw [if_neg hne]

theorem C6_get_report_witness :
    (boot board0 0 1).TxXferCount < UINT32_MOD ∧
      RID_TXXFER = 0xff ∧
      (tud_hid_get_report_cb (boot board0 0 1) 0 RID_TXXFER 1 (fun _ => 0xaa) 64).2.2 = 4 ∧
      (∀ i, i < 4 →
        (tud_hid_get_report_cb (boot board0 0 1) 0 RID_TXXFER 1 (fun _ => 0xaa) 64).2.1 i
          = ((boot board0 0 1).TxXferCount / 256 ^ i) % 256) ∧
      (tud_hid_get_report_cb (boot board0 0 1) 0 RID_TXXFER 1 (fun _ => 0xaa) 64).2.1 0
        + (tud_hid_get_report_cb (boot board0 0 1) 0 RID_TXXFER 1 (fun _ => 0xaa) 64).2.1 1
          * 256 ^ 1
        + (tud_hid_get_report_cb (boot board0 0 1) 0 RID_TXXFER 1 (fun _ => 0xaa) 64).2.1 2
          * 256 ^ 2
        + (tud_hid_get_report_cb (boot board0 0 1) 0 RID_TXXFER 1 (fun _ => 0xaa) 64).2.1 3
          * 256 ^ 3
        = (boot board0 0 1).TxXferCount ∧
      (∀ i, 4 ≤ i →
        (tud_hid_get_report_cb (boot board0 0 1) 0 RID_TXXFER 1 (fun _ => 0xaa) 64).2.1 i
          = (fun _ => 0xaa) i) ∧
      (∀ report_id, report_id ≠ RID_TXXFER →
        (tud_hid_get_report_cb (boot board0 0 1) 0 report_id 1 (fun _ => 0xaa) 64).2
          = ((fun _ => 0xaa), 0)) :=
  ⟨by rw [boot_TxXferCount]; decide,
    C6_get_report (boot board0 0 1) 0 1 64 (fun _ => 0xaa) (by rw [boot_TxXferCount]; decide)⟩

/-! ## Channel configuration: claims -/

/-- C8: `dma_tx_setup` and `dma_rx_setup` both program a ring of `size_bits = 10` (on the read
side for transmit, on the write side for receive); the wrap region of `2 ^ 10` bytes is
exactly the byte length of the wrapped buffer, `2 ^ 10 = RXBUF_SIZE * 4 = TXBUF_SIZE * 4 =
1024`; the capacity of 256 words is the power of two `2 ^ 8`; and `DMA_XFER = 16` divides it
with no remainder into exactly 16 chunks. -/
theorem C8_ring_geometry (s : State) (b : Board) (chan : Nat) :
    ((dma_tx_setup s b chan).chans chan).ctrl.ring_size_bits = 10 ∧
      ((dma_tx_setup s b chan).chans chan).ctrl.ring_write = false ∧
      ((dma_tx_setup s b chan).chans chan).read_addr = b.TxBuffer_addr ∧
      ((dma_rx_setup s b chan).chans chan).ctrl.ring_size_bits = 10 ∧
      ((dma_rx_setup s b chan).chans chan).ctrl.ring_write = true ∧
      ((dma_rx_setup s b chan).chans chan).write_addr = b.RxBuffer_addr ∧
      2 ^ 10 = RXBUF_SIZE * SIZEOF_UINT32 ∧
      2 ^ 10 = TXBUF_SIZE * SIZEOF_UINT32 ∧
      RXBUF_SIZE * SIZEOF_UINT32 = 1024 ∧
      RXBUF_SIZE = 2 ^ 8 ∧
      DMA_XFER = 16 ∧
      RXBUF_SIZE % DMA_XFER = 0 ∧
      RXBUF_SIZE / DMA_XFER = 16 ∧
      16 * DMA_XFER = RXBUF_SIZE := by
  refine ⟨?_, ?_, ?_, ?_, ?_, ?_, by decide, by decide, by decide, by decide, rfl,
    by decide, by decide, by decide⟩ <;>
  simp [dma_tx_setup, dma_rx_setup, dma_channel_configure, State.call,
    channel_config_set_dreq, channel_config_set_ring, channel_config_set_write_increment,
    channel_config_set_read_increment, channel_config_set_transfer_data_size,
    dma_channel_get_default_config]

/-! ## Transmit read addresses -/

theorem send_after_setup_channel (s : State) (b : Board) (chan a L : Nat) (h64 : 64 ≤ L)
    (h4 : L % 4 = 0) :
    (buf_to_pio_sm_put_blocking (dma_tx_setup s b chan) a L).1.chans chan =
      { read_addr := a, write_addr := b.txf_addr, transfer_count := L / 4,
        ctrl := { data_size := 2, incr_read := true, incr_write := false,
                  ring_write := false, ring_size_bits := 10,
                  dreq := Dreq.pio_fifo 0 true } } := by
  rw [put_blocking_valid _ a L h64 h4]
  simp [dma_tx_setup, dma_channel_configure, State.call, dma_channel_set_trans_count,
    dma_channel_set_read_addr, channel_config_set_dreq, channel_config_set_ring,
    channel_config_set_write_increment, channel_config_set_read_increment,
    channel_config_set_transfer_data_size, dma_channel_get_default_config, pio_get_dreq,
    sm_tx, DMA_SIZE_32]

theorem tx_read_flat_within_region (s : State) (b : Board) (chan a L i : Nat) (h64 : 64 ≤ L)
    (h4 : L % 4 = 0) (hfit : a % 1024 + L ≤ 1024) (hi : i < L / 4) :
    dma_read_address ((buf_to_pio_sm_put_blocking (dma_tx_setup s b chan) a L).1.chans chan) i
      = a + 4 * i := by
  rw [send_after_setup_channel s b chan a L h64 h4]
  simp only [dma_read_address]
  norm_num
  omega

/-- C9, the code at the failing input: after `dma_tx_setup`, a send of the valid length 64
from the word-aligned address `0x200013E0` leaves the channel with read increment on and
the read-side ring of `2 ^ 10` bytes still selected, and read address `0x200013E0`. Words 0
to 7 are read from `a + 4 * i`, but word 8 is read from `0x20001000`, the start of the
1 KiB block containing `a`, and not from `a + 4 * 8 = 0x20001400`: the caller's buffer is
not read as a flat source. -/
theorem C9_ring_wraps_caller_buffer :
    (64 ≤ 64 ∧ 64 % 4 = 0 ∧ 0x200013E0 % 4 = 0 ∧ 8 < 64 / 4) ∧
      ((buf_to_pio_sm_put_blocking (dma_tx_setup State.init board0 0) 0x200013E0 64).1.chans
        0).ctrl.ring_size_bits = 10 ∧
      ((buf_to_pio_sm_put_blocking (dma_tx_setup State.init board0 0) 0x200013E0 64).1.chans
        0).ctrl.ring_write = false ∧
      ((buf_to_pio_sm_put_blocking (dma_tx_setup State.init board0 0) 0x200013E0 64).1.chans
        0).ctrl.incr_read = true ∧
      ((buf_to_pio_sm_put_blocking (dma_tx_setup State.init board0 0) 0x200013E0 64).1.chans
        0).read_addr = 0x200013E0 ∧
      dma_read_address
        ((buf_to_pio_sm_put_blocking (dma_tx_setup State.init board0 0) 0x200013E0 64).1.chans
          0) 7 = 0x200013E0 + 4 * 7 ∧
      dma_read_address
        ((buf_to_pio_sm_put_blocking (dma_tx_setup State.init board0 0) 0x200013E0 64).1.chans
          0) 8 = 0x20001000 ∧
      dma_read_address
        ((buf_to_pio_sm_put_blocking (dma_tx_setup State.init board0 0) 0x200013E0 64).1.chans
          0) 8 ≠ 0x200013E0 + 4 * 8 := by
  rw [send_after_setup_channel State.init board0 0 0x200013E0 64 (by decide) (by decide)]
  refine ⟨by decide, rfl, rfl, rfl, rfl, ?_, ?_, ?_⟩ <;>
  simp [dma_read_address]

end DiffManchester
